import Mathlib

/-! # Verification of the Vortex deployment form (client + server route)

Shallow embedding of the repository's validation-and-submission pipeline:

* the client form component (`validateForm`, `handleInputChange`,
  `updateEnvVar`, `handleSubmit`) from the deployment-form source file, and
* the server route (`deploymentSchema` as `zodIssues`/`serverParse`,
  `extractGitHubInfo`, and the `POST` handler as `handlePOST`) from
  `src/app/api/deploy/route.ts`.

String scanning is done over `List Char` with bespoke executable helpers so
every theorem can be settled by computation or induction.  External network
effects are modelled by an explicit `World` record describing the outcomes the
platform would return, together with a `CallTrace` recording which optional
follow-up calls the handler issued.
-/

namespace Vortex

/-! ## List-of-character scanning primitives -/

/-- `hasPrefixL pat s` holds when `pat` is a prefix of `s`. -/
def hasPrefixL : List Char → List Char → Bool
  | [], _ => true
  | _ :: _, [] => false
  | p :: ps, c :: cs => p == c && hasPrefixL ps cs

/-- `hasSubstrL pat s`: `pat` occurs contiguously somewhere in `s`
(JavaScript `String.prototype.includes`). -/
def hasSubstrL (pat : List Char) : List Char → Bool
  | [] => pat.isEmpty
  | c :: cs => hasPrefixL pat (c :: cs) || hasSubstrL pat cs

/-- `hasSuffixL pat s`: `pat` is a suffix of `s`. -/
def hasSuffixL (pat s : List Char) : Bool :=
  hasPrefixL pat.reverse s.reverse

/-- Remove `pat` from the front of `s`, returning the remainder. -/
def dropStartL : List Char → List Char → Option (List Char)
  | [], s => some s
  | _ :: _, [] => none
  | p :: ps, c :: cs => if p == c then dropStartL ps cs else none

/-- Split at the first occurrence of `pat`, returning the text before and
after it (`none` when `pat` does not occur). -/
def breakOnL (pat : List Char) : List Char → Option (List Char × List Char)
  | [] => if pat.isEmpty then some ([], []) else none
  | c :: cs =>
    if hasPrefixL pat (c :: cs) then some ([], List.drop pat.length (c :: cs))
    else
      match breakOnL pat cs with
      | some (l, r) => some (c :: l, r)
      | none => none

/-- Remove the first occurrence of `pat` from `s`, as JavaScript
`String.prototype.replace(pat, "")` does with a string pattern. -/
def removeFirstL (pat : List Char) : List Char → List Char
  | [] => []
  | c :: cs =>
    if hasPrefixL pat (c :: cs) then List.drop pat.length (c :: cs)
    else c :: removeFirstL pat cs

/-- Split on a separator character; mirrors `String.splitOn` for a
one-character separator (the empty list yields `[[]]`). -/
def splitOnCharL (sep : Char) : List Char → List (List Char)
  | [] => [[]]
  | c :: cs =>
    let rest := splitOnCharL sep cs
    if c == sep then [] :: rest
    else
      match rest with
      | [] => [[c]]
      | r :: rs => (c :: r) :: rs

/-- The whitespace characters relevant to JavaScript `trim` on this input
alphabet. -/
def wsChar (c : Char) : Bool :=
  c == ' ' || c == '\t' || c == '\n' || c == '\r'

/-- JavaScript `String.prototype.trim`: drop whitespace from both ends. -/
def trimL (l : List Char) : List Char :=
  ((l.dropWhile wsChar).reverse.dropWhile wsChar).reverse

/-! ## String-level wrappers used by the embedded code -/

/-- JavaScript truthiness of a string: the empty string is falsy. -/
def strEmpty (s : String) : Bool := s.data.isEmpty

/-- `includes s pat`: JavaScript `s.includes(pat)`. -/
def includes (s pat : String) : Bool := hasSubstrL pat.data s.data

/-- `startsWithS s pat`: JavaScript `s.startsWith(pat)`. -/
def startsWithS (s pat : String) : Bool := hasPrefixL pat.data s.data

/-- `isBlank s`: JavaScript `!s.trim()` — `s` is empty after trimming. -/
def isBlank (s : String) : Bool := (trimL s.data).isEmpty

/-! ## Shared data model -/

/-- One environment-variable pair of the form state / request body. -/
structure EnvVar where
  key : String
  value : String
deriving Repr, DecidableEq

/-- The deployment target enumeration (`'production' | 'preview'`). -/
inductive Target where
  | production
  | preview
deriving Repr, DecidableEq

/-- The serialized form of a `Target`. -/
def targetStr : Target → String
  | .production => "production"
  | .preview => "preview"

/-! ## Client form state and validator -/

/-- The client `FormData` state (all scalar fields are strings; `target` is
typed as the enum in the component). -/
structure FormData where
  repositoryUrl : String
  userName : String
  password : String
  domainName : String
  projectName : String
  branch : String
  target : Target
  envVars : List EnvVar
deriving Repr, DecidableEq

/-- The client `FormErrors` mapping: one optional message per field key.
`none` models the key being absent from the JavaScript object. -/
structure FormErrors where
  repositoryUrl : Option String := none
  userName : Option String := none
  password : Option String := none
  domainName : Option String := none
  projectName : Option String := none
  branch : Option String := none
  target : Option String := none
  envVars : Option String := none
deriving Repr, DecidableEq

/-- `Object.keys(errors).length === 0`: no field carries an error. -/
def FormErrors.isClean (e : FormErrors) : Bool :=
  e.repositoryUrl.isNone && e.userName.isNone && e.password.isNone &&
  e.domainName.isNone && e.projectName.isNone && e.branch.isNone &&
  e.target.isNone && e.envVars.isNone

/-- The client regex `^https:\/\/github\.com\/[^\/]+\/[^\/]+(?:\.git)?$`.
Because `[^\/]+` is greedy and `.git` contains no `/`, the optional group is
absorbed by the repeated class; the regex accepts exactly the strings of the
form `https://github.com/<owner>/<repo>` with both segments non-empty and
slash-free. -/
def matchesRepoUrlRe (s : String) : Bool :=
  match dropStartL "https://github.com/".data s.data with
  | none => false
  | some rest =>
    match splitOnCharL '/' rest with
    | [a, b] => !a.isEmpty && !b.isEmpty
    | _ => false

/-- The character class `[a-zA-Z0-9-_]` of the project-name regex. -/
def isProjectChar (c : Char) : Bool :=
  c.isAlpha || c.isDigit || c == '-' || c == '_'

/-- The client regex `^[a-zA-Z0-9-_]+$` for project names. -/
def matchesProjectNameRe (s : String) : Bool :=
  !s.data.isEmpty && s.data.all isProjectChar

/-- An ASCII letter or digit, the class `[a-zA-Z0-9]`. -/
def isAlnum (c : Char) : Bool := c.isAlpha || c.isDigit

/-- The client regex `^[a-zA-Z0-9][a-zA-Z0-9-]*[a-zA-Z0-9]*$` for domain
names.  The final `[a-zA-Z0-9]*` can always match the empty string, so the
regex accepts exactly: non-empty, alphanumeric first character, and every
later character alphanumeric or `-` (note `.` is rejected). -/
def matchesDomainRe (s : String) : Bool :=
  match s.data with
  | [] => false
  | c :: cs => isAlnum c && cs.all fun d => isAlnum d || d == '-'

/-- The client `validateForm`, building the fresh error object field by
field exactly as the component does. -/
def validateForm (f : FormData) : FormErrors :=
  { repositoryUrl :=
      if isBlank f.repositoryUrl then some "Repository URL is required"
      else if !includes f.repositoryUrl "github.com" then
        some "Please enter a valid GitHub repository URL"
      else if !matchesRepoUrlRe f.repositoryUrl then
        some "Invalid format. Use: https://github.com/username/repository"
      else none
    userName :=
      if isBlank f.userName then some "Username is required"
      else if f.userName.length < 3 then some "Username must be at least 3 characters"
      else none
    password :=
      if !strEmpty f.password && f.password.length < 6 then
        some "Password must be at least 6 characters"
      else none
    projectName :=
      if isBlank f.projectName then some "Project name is required"
      else if !matchesProjectNameRe f.projectName then
        some "Only letters, numbers, hyphens, and underscores allowed"
      else none
    branch := if isBlank f.branch then some "Branch is required" else none
    domainName :=
      if !strEmpty f.domainName && !matchesDomainRe f.domainName then
        some "Invalid domain format (e.g., mydomain.com)"
      else none
    target := none
    envVars :=
      if 0 < (f.envVars.filter fun e => isBlank e.key || isBlank e.value).length then
        some "All environment variables must have both key and value"
      else none }

/-! ## Client form-state operations -/

/-- The keys of the `FormErrors` object. -/
inductive FieldKey where
  | repositoryUrl | userName | password | domainName | projectName | branch
  | target | envVars
deriving Repr, DecidableEq

/-- Read the error entry stored under a key. -/
def FormErrors.get (e : FormErrors) : FieldKey → Option String
  | .repositoryUrl => e.repositoryUrl
  | .userName => e.userName
  | .password => e.password
  | .domainName => e.domainName
  | .projectName => e.projectName
  | .branch => e.branch
  | .target => e.target
  | .envVars => e.envVars

/-- `delete newErrors[field]`: drop the entry stored under a key. -/
def FormErrors.clear (e : FormErrors) : FieldKey → FormErrors
  | .repositoryUrl => { e with repositoryUrl := none }
  | .userName => { e with userName := none }
  | .password => { e with password := none }
  | .domainName => { e with domainName := none }
  | .projectName => { e with projectName := none }
  | .branch => { e with branch := none }
  | .target => { e with target := none }
  | .envVars => { e with envVars := none }

/-- The scalar form fields the component edits through `handleInputChange`
(every text input of the form; `target` has no input and `envVars` is edited
through `updateEnvVar`). -/
inductive ScalarField where
  | repositoryUrl | userName | password | domainName | projectName | branch
deriving Repr, DecidableEq

/-- The error-mapping key of a scalar field. -/
def ScalarField.key : ScalarField → FieldKey
  | .repositoryUrl => .repositoryUrl
  | .userName => .userName
  | .password => .password
  | .domainName => .domainName
  | .projectName => .projectName
  | .branch => .branch

/-- `setFormData(prev => ({...prev, [field]: value}))` for a scalar field. -/
def setScalar (f : FormData) : ScalarField → String → FormData
  | .repositoryUrl, v => { f with repositoryUrl := v }
  | .userName, v => { f with userName := v }
  | .password, v => { f with password := v }
  | .domainName, v => { f with domainName := v }
  | .projectName, v => { f with projectName := v }
  | .branch, v => { f with branch := v }

/-- The client `handleInputChange`: update the field value and, when the
field currently carries a (truthy) error entry, delete exactly that entry. -/
def handleInputChange (fld : ScalarField) (value : String) (f : FormData)
    (errs : FormErrors) : FormData × FormErrors :=
  ( setScalar f fld value,
    match errs.get fld.key with
    | some m => if strEmpty m then errs else errs.clear fld.key
    | none => errs )

/-- The two slots of an environment-variable row. -/
inductive EnvSlot where
  | key | value
deriving Repr, DecidableEq

/-- Overwrite one slot of an environment-variable pair. -/
def setEnvSlot (e : EnvVar) : EnvSlot → String → EnvVar
  | .key, v => { e with key := v }
  | .value, v => { e with value := v }

/-- Index-aware map used to model `envVars.map((envVar, i) => ...)`. -/
def mapWithIdx (g : Nat → EnvVar → EnvVar) : Nat → List EnvVar → List EnvVar
  | _, [] => []
  | i, e :: es => g i e :: mapWithIdx g (i + 1) es

/-- The client `updateEnvVar`: rewrite entry `i` of the list, touching no
other state. -/
def updateEnvVar (i : Nat) (slot : EnvSlot) (v : String) (f : FormData) : FormData :=
  { f with envVars := mapWithIdx (fun j e => if j == i then setEnvSlot e slot v else e) 0 f.envVars }

/-- The `onChange` handler of an environment-variable input: it calls only
`updateEnvVar`, so the error mapping is carried through unchanged. -/
def editEnvVarEntry (i : Nat) (slot : EnvSlot) (v : String) (f : FormData)
    (errs : FormErrors) : FormData × FormErrors :=
  (updateEnvVar i slot v f, errs)

/-! ## Server request body and the zod `deploymentSchema` -/

/-- The raw JSON request body of `POST /api/deploy`; `none` models an absent
field (fields, when present, are taken well-typed as in the wire contract). -/
structure RawBody where
  repositoryUrl : Option String := none
  userName : Option String := none
  password : Option String := none
  domainName : Option String := none
  projectName : Option String := none
  branch : Option String := none
  target : Option String := none
  envVars : Option (List EnvVar) := none
deriving Repr, DecidableEq

/-- One entry of the zod error `details` list: dotted field path plus
message. -/
structure FieldDetail where
  field : String
  message : String
deriving Repr, DecidableEq

/-- Modelled from the WHATWG URL parse performed by zod's `.url()` check
(library code, not in this repository), simplified to: an alphabetic scheme,
the separator `://`, and a non-empty remainder. -/
def isWellFormedUrl (s : String) : Bool :=
  match breakOnL "://".data s.data with
  | some (scheme, rest) => !scheme.isEmpty && scheme.all Char.isAlpha && !rest.isEmpty
  | none => false

/-- Issues of `z.string().url('Invalid repository URL').refine(url =>
url.includes('github.com'), 'Only GitHub repositories are supported')`;
the refinement runs only once the inner checks pass. -/
def repoIssues : Option String → List FieldDetail
  | none => [⟨"repositoryUrl", "Required"⟩]
  | some u =>
    if !isWellFormedUrl u then [⟨"repositoryUrl", "Invalid repository URL"⟩]
    else if !includes u "github.com" then
      [⟨"repositoryUrl", "Only GitHub repositories are supported"⟩]
    else []

/-- Issues of `userName: z.string().min(1, 'Username is required')`. -/
def userIssues : Option String → List FieldDetail
  | none => [⟨"userName", "Required"⟩]
  | some u => if strEmpty u then [⟨"userName", "Username is required"⟩] else []

/-- Issues of `projectName: z.string().min(1, 'Project name is required')`. -/
def projectIssues : Option String → List FieldDetail
  | none => [⟨"projectName", "Required"⟩]
  | some p => if strEmpty p then [⟨"projectName", "Project name is required"⟩] else []

/-- Issues of `branch: z.string().min(1, 'Branch is required').default('main')`:
the default applies only when the field is absent. -/
def branchIssues : Option String → List FieldDetail
  | none => []
  | some s => if strEmpty s then [⟨"branch", "Branch is required"⟩] else []

/-- Issues of `target: z.enum(['production', 'preview']).default('production')`. -/
def targetIssues : Option String → List FieldDetail
  | none => []
  | some t =>
    if t == "production" || t == "preview" then []
    else [⟨"target", "Invalid enum value. Expected 'production' | 'preview'"⟩]

/-- Issues of one `envVars` entry (`key`/`value` each `z.string().min(1, ...)`). -/
def envEntryIssues (i : Nat) (e : EnvVar) : List FieldDetail :=
  (if strEmpty e.key then
    [⟨"envVars." ++ toString i ++ ".key", "Environment variable key is required"⟩]
  else []) ++
  (if strEmpty e.value then
    [⟨"envVars." ++ toString i ++ ".value", "Environment variable value is required"⟩]
  else [])

/-- Issues of the `envVars` array starting at index `i`. -/
def envListIssues : Nat → List EnvVar → List FieldDetail
  | _, [] => []
  | i, e :: es => envEntryIssues i e ++ envListIssues (i + 1) es

/-- Issues of `envVars: z.array(...).optional().default([])`. -/
def envIssues : Option (List EnvVar) → List FieldDetail
  | none => []
  | some es => envListIssues 0 es

/-- All issues `deploymentSchema.parse` collects on a body, in shape order
(`password` and `domainName` are unconstrained optional strings). -/
def zodIssues (b : RawBody) : List FieldDetail :=
  repoIssues b.repositoryUrl ++ userIssues b.userName ++
  projectIssues b.projectName ++ branchIssues b.branch ++
  targetIssues b.target ++ envIssues b.envVars

/-- The coerced output type of a successful `deploymentSchema.parse`. -/
structure ValidatedData where
  repositoryUrl : String
  userName : String
  password : Option String
  domainName : Option String
  projectName : String
  branch : String
  target : Target
  envVars : List EnvVar
deriving Repr, DecidableEq

/-- `deploymentSchema.parse(body)`: `none` when any issue is raised
(the handler's ZodError path), otherwise the validated data with the
schema defaults applied. -/
def serverParse (b : RawBody) : Option ValidatedData :=
  if (zodIssues b).isEmpty then
    some { repositoryUrl := b.repositoryUrl.getD ""
           userName := b.userName.getD ""
           password := b.password
           domainName := b.domainName
           projectName := b.projectName.getD ""
           branch := b.branch.getD "main"
           target := if b.target == some "preview" then Target.preview else Target.production
           envVars := b.envVars.getD [] }
  else none

/-- The helper `extractGitHubInfo`: the search regex
`github\.com\/([^\/]+)\/([^\/]+)(?:\.git)?$` matches exactly when the string
splits on `/` into at least three parts whose last two are non-empty and
whose third-from-last ends in `github.com` (the greedy `[^\/]+` swallows any
trailing `.git`, so the optional group never captures); the repo capture then
has its first occurrence of `.git` removed by `repo.replace('.git', '')`.
Returns `none` where the route throws `Error('Invalid GitHub repository URL')`. -/
def extractGitHubInfo (repositoryUrl : String) : Option (String × String) :=
  match (splitOnCharL '/' repositoryUrl.data).reverse with
  | repoSeg :: orgSeg :: hostSeg :: _ =>
    if !repoSeg.isEmpty && !orgSeg.isEmpty && hasSuffixL "github.com".data hostSeg then
      some (String.mk orgSeg, String.mk (removeFirstL ".git".data repoSeg))
    else none
  | _ => none

/-! ## The external platform as an explicit world, and the POST handler -/

/-- The deployment object of the platform's create-deployment response
(the fields the route reads, plus the platform's own `state`, which the
route ignores). -/
structure DeploymentInfo where
  id : String
  status : String
  url : Option String
  «alias» : Option (List String)
  createdAt : Nat
  ready : Option Nat
  state : String
  inspectorUrl : Option String
deriving Repr, DecidableEq

/-- Outcome of the primary `fetch` to the create-deployment endpoint:
`ok` and `httpStatus` describe the response status, `errorBodyText` is
`JSON.stringify(errorData)` for a non-ok response, `deployment` the parsed
body of an ok response. -/
structure PrimaryOutcome where
  ok : Bool
  httpStatus : Nat
  errorBodyText : String
  deployment : DeploymentInfo
deriving Repr, DecidableEq

/-- Outcome of an awaited SDK call: either its resolved value or the message
of the rejection caught by the surrounding `try`/`catch`. -/
inductive CallResult (α : Type) where
  | success (val : α)
  | failure (msg : String)
deriving Repr, DecidableEq

/-- Everything the external platform would answer during one request:
the primary call's outcome, the domain-attach call's outcome (its resolved
value is `addDomainResponse.name`), and the env-var upsert call's outcome. -/
structure World where
  primary : PrimaryOutcome
  domainCall : CallResult String
  envCall : CallResult Unit
deriving Repr, DecidableEq

/-- The `domain` object of the route's success response. -/
structure DomainResult where
  name : String
  status : String
  added : Bool
  error : Option String := none
deriving Repr, DecidableEq

/-- The `envVars` object of the route's success response. -/
structure EnvVarsResult where
  added : Bool
  count : Nat
  «variables» : Option (List String) := none
  error : Option String := none
deriving Repr, DecidableEq

/-- The `deployment` object of the route's success response. -/
structure DeploymentOut where
  id : String
  status : String
  url : Option String
  «alias» : Option (List String)
  createdAt : Nat
  readyAt : Option Nat
  state : String
  inspectorUrl : Option String
deriving Repr, DecidableEq

/-- The JSON body and HTTP status the route responds with. -/
structure ApiResponse where
  httpStatus : Nat
  success : Bool
  error : Option String := none
  message : Option String := none
  details : Option (List FieldDetail) := none
  deployment : Option DeploymentOut := none
  domain : Option DomainResult := none
  envVars : Option EnvVarsResult := none
deriving Repr, DecidableEq

/-- One entry of the payload sent to the env-var upsert call:
`{key, value, target: ['production'], type: 'plain'}`. -/
structure EnvEntryPayload where
  key : String
  value : String
  target : List String
  envType : String
deriving Repr, DecidableEq

/-- Which optional follow-up calls the handler issued: whether the
domain-attach call was made, and the batch payload of the env-var upsert
call when it was made (`none` = the call was never issued). -/
structure CallTrace where
  domainCalled : Bool
  envPayload : Option (List EnvEntryPayload)
deriving Repr, DecidableEq

/-- The trace of a run that issued neither optional call. -/
def noCalls : CallTrace := { domainCalled := false, envPayload := none }

/-- A caught JavaScript error value: its `message`, and its `status`
property when one exists (`throw new Error(...)` produces `status := none`). -/
structure JsError where
  message : String
  status : Option Nat := none
deriving Repr, DecidableEq

/-- The route's `catch` block (after the ZodError test): the `'status' in
error` branches, then the message-substring classification, then the generic
500 response. -/
def catchHandler (e : JsError) : ApiResponse :=
  if e.status == some 401 then
    { httpStatus := 401, success := false, error := some "Authentication failed",
      message := some "Invalid Vercel token. Check your VERCEL_TOKEN environment variable." }
  else if e.status == some 403 then
    { httpStatus := 403, success := false, error := some "Access denied",
      message := some "Vercel token is invalid or expired. Please check your VERCEL_TOKEN environment variable." }
  else if e.status == some 404 then
    { httpStatus := 404, success := false, error := some "Repository not found",
      message := some "Repository not found. Check the repository URL and permissions." }
  else if includes e.message "forbidden" || includes e.message "Not authorized" then
    { httpStatus := 403, success := false, error := some "Vercel authentication failed",
      message := some "Vercel token is invalid or expired. Please check your VERCEL_TOKEN environment variable." }
  else if includes e.message "projectSettings" || includes e.message "framework" then
    { httpStatus := 400, success := false, error := some e.message,
      message := some "Project configuration error. Please check your repository setup." }
  else if includes e.message "incorrect_git_source_info" then
    { httpStatus := 400, success := false, error := some "Repository not found or branch does not exist",
      message := some "Please check your repository URL and branch name." }
  else
    { httpStatus := 500, success := false, error := some e.message,
      message := some "Deployment failed. Check your Vercel token and repository permissions." }

/-- `deployment.url ? (deployment.url.startsWith('http') ? deployment.url :
`https://${deployment.url}`) : null` (and identically for `inspectorUrl`). -/
def normalizeUrl : Option String → Option String
  | none => none
  | some s =>
    if strEmpty s then none
    else if startsWithS s "http" then some s
    else some ("https://" ++ s)

/-- The success path of the handler after an ok primary response: the
optional domain-attach call, the optional env-var upsert call, and the 200
response assembly. -/
def successResponse (v : ValidatedData) (w : World) : ApiResponse × CallTrace :=
  let d := w.primary.deployment
  let domainWanted :=
    match v.domainName with
    | some dn => !strEmpty dn
    | none => false
  let domainResult : Option DomainResult :=
    match v.domainName with
    | some dn =>
      if strEmpty dn then none
      else
        match w.domainCall with
        | .success respName => some { name := respName, status := "added", added := true }
        | .failure msg => some { name := dn, status := "error", added := false, error := some msg }
    | none => none
  let envPayload : Option (List EnvEntryPayload) :=
    if v.envVars.isEmpty then none
    else some (v.envVars.map fun e =>
      { key := e.key, value := e.value, target := ["production"], envType := "plain" })
  let envVarsResult : Option EnvVarsResult :=
    if v.envVars.isEmpty then none
    else
      match w.envCall with
      | .success _ => some { added := true, count := v.envVars.length,
                             «variables» := some (v.envVars.map fun e => e.key) }
      | .failure msg => some { added := false, count := 0, error := some msg }
  ( { httpStatus := 200, success := true,
      deployment := some
        { id := d.id, status := d.status,
          url := normalizeUrl d.url,
          «alias» := d.«alias», createdAt := d.createdAt, readyAt := d.ready,
          state := "BUILDING",
          inspectorUrl := normalizeUrl d.inspectorUrl },
      domain := domainResult, envVars := envVarsResult,
      message := some "Deployment created successfully!" },
    { domainCalled := domainWanted, envPayload := envPayload } )

/-- The handler after schema validation and GitHub-info extraction both
succeeded: issue the primary call; a non-ok response becomes
`throw new Error(JSON.stringify(errorData))`, caught by the route's `catch`. -/
def afterExtract (v : ValidatedData) (w : World) : ApiResponse × CallTrace :=
  if w.primary.ok then successResponse v w
  else (catchHandler { message := w.primary.errorBodyText }, noCalls)

/-- The handler after schema validation succeeded: `extractGitHubInfo` either
yields the git source or throws `Error('Invalid GitHub repository URL')`,
which the route's `catch` classifies (no upstream call is made in that case). -/
def afterParse (v : ValidatedData) (w : World) : ApiResponse × CallTrace :=
  match extractGitHubInfo v.repositoryUrl with
  | none => (catchHandler { message := "Invalid GitHub repository URL" }, noCalls)
  | some _ => afterExtract v w

/-- The `POST` handler of `/api/deploy` as a function of the request body
and the platform's answers, returning the HTTP response and the trace of
optional follow-up calls. A ZodError is answered with the 400 validation
response carrying the structured `details` list. -/
def handlePOST (b : RawBody) (w : World) : ApiResponse × CallTrace :=
  match serverParse b with
  | none =>
    ( { httpStatus := 400, success := false, error := some "Validation failed",
        details := some (zodIssues b) }, noCalls )
  | some v => afterParse v w

/-! ## Client submission -/

/-- `JSON.stringify(formData)`: every field of the form state is serialized,
empty strings included. -/
def bodyOfForm (f : FormData) : RawBody :=
  { repositoryUrl := some f.repositoryUrl
    userName := some f.userName
    password := some f.password
    domainName := some f.domainName
    projectName := some f.projectName
    branch := some f.branch
    target := some (targetStr f.target)
    envVars := some f.envVars }

/-- The visible outcome of one `handleSubmit` run. -/
inductive SubmitOutcome where
  | validationFailure (errs : FormErrors)
  | serverReply (resp : ApiResponse)
deriving Repr, DecidableEq

/-- The client `handleSubmit`: run the validator; on any error return
immediately, otherwise serialize the form state and perform the single
network call.  The returned flag records whether the network call happened. -/
def handleSubmit (f : FormData) (server : RawBody → ApiResponse) :
    SubmitOutcome × Bool :=
  if (validateForm f).isClean then
    (SubmitOutcome.serverReply (server (bodyOfForm f)), true)
  else
    (SubmitOutcome.validationFailure (validateForm f), false)

/-! ## Specification-level predicates used by the theorems -/

/-- The conjunction of the rules of §4.1 of the specification, stated over
the client form state. -/
def wellFormedForm (f : FormData) : Bool :=
  matchesRepoUrlRe f.repositoryUrl &&
  !(isBlank f.userName || decide (f.userName.length < 3)) &&
  !(!strEmpty f.password && decide (f.password.length < 6)) &&
  !(!strEmpty f.domainName && !matchesDomainRe f.domainName) &&
  matchesProjectNameRe f.projectName &&
  !isBlank f.branch &&
  !(f.envVars.any fun e => isBlank e.key || isBlank e.value)

/-- The repository-URL constraint actually enforced by the schema. -/
def repoFieldOK : Option String → Bool
  | none => false
  | some u => isWellFormedUrl u && includes u "github.com"

/-- The user-name constraint actually enforced by the schema. -/
def userFieldOK : Option String → Bool
  | none => false
  | some u => !strEmpty u

/-- The project-name constraint actually enforced by the schema. -/
def projectFieldOK : Option String → Bool
  | none => false
  | some p => !strEmpty p

/-- The branch constraint actually enforced by the schema. -/
def branchFieldOK : Option String → Bool
  | none => true
  | some s => !strEmpty s

/-- The target constraint actually enforced by the schema. -/
def targetFieldOK : Option String → Bool
  | none => true
  | some t => t == "production" || t == "preview"

/-- The environment-variable constraint actually enforced by the schema. -/
def envFieldOK : Option (List EnvVar) → Bool
  | none => true
  | some es => es.all fun e => !strEmpty e.key && !strEmpty e.value

/-- The full contract the schema enforces: note the absence of the client's
minimum lengths, charset restriction, exact URL pattern and domain pattern. -/
def serverContractOK (b : RawBody) : Bool :=
  repoFieldOK b.repositoryUrl && userFieldOK b.userName &&
  projectFieldOK b.projectName && branchFieldOK b.branch &&
  targetFieldOK b.target && envFieldOK b.envVars

/-! ## Concrete fixtures for witnesses and counterexamples -/

/-- A form state that violates five of the client rules of §4.1 at once
(URL shape, user-name length, password length, project-name charset,
domain pattern) while satisfying every constraint of the server schema. -/
def c1CeForm : FormData :=
  { repositoryUrl := "https://github.com/acme/widget/tree"
    userName := "ab"
    password := "123"
    domainName := "widget.example.com"
    projectName := "my app!"
    branch := "main"
    target := .production
    envVars := [] }

/-- A minimal raw body leaving `branch`, `target` and `envVars` absent. -/
def c1WitBody : RawBody :=
  { repositoryUrl := some "https://github.com/acme/widget"
    userName := some "alice"
    projectName := some "widget-prod" }

/-- The validated data `serverParse` produces for `c1WitBody`. -/
def c1WitData : ValidatedData :=
  { repositoryUrl := "https://github.com/acme/widget"
    userName := "alice"
    password := none
    domainName := none
    projectName := "widget-prod"
    branch := "main"
    target := .production
    envVars := [] }

/-- A schema-valid request body used to drive the handler fixtures. -/
def okBody : RawBody :=
  { repositoryUrl := some "https://github.com/acme/widget"
    userName := some "alice"
    password := some ""
    domainName := some "widget.example.com"
    projectName := some "widget-prod"
    branch := some "main"
    target := some "production"
    envVars := some [⟨"API_KEY", "secret1"⟩, ⟨"DB_URL", "postgres"⟩] }

/-- The validated data `serverParse` produces for `okBody`. -/
def okData : ValidatedData :=
  { repositoryUrl := "https://github.com/acme/widget"
    userName := "alice"
    password := some ""
    domainName := some "widget.example.com"
    projectName := "widget-prod"
    branch := "main"
    target := .production
    envVars := [⟨"API_KEY", "secret1"⟩, ⟨"DB_URL", "postgres"⟩] }

/-- A create-deployment response body with a scheme-less `url` and an
absolute `inspectorUrl`; its own `state` is `"READY"`, not `"BUILDING"`. -/
def okDeployment : DeploymentInfo :=
  { id := "dpl_6CR1u7", status := "QUEUED"
    url := some "my-app.vercel.app"
    «alias» := some ["my-app.vercel.app"]
    createdAt := 1714, ready := none
    state := "READY"
    inspectorUrl := some "https://vercel.com/acme/widget-prod/6CR1u7" }

/-- A world where the primary call succeeds, the domain-attach call is
rejected, and the env-var upsert succeeds. -/
def okWorld : World :=
  { primary := { ok := true, httpStatus := 200, errorBodyText := "", deployment := okDeployment }
    domainCall := .failure "Domain is already assigned to another project"
    envCall := .success () }

/-- A world whose primary call answers HTTP 401 with an error body that
mentions neither `forbidden` nor `Not authorized`. -/
def c2CeWorld : World :=
  { primary :=
      { ok := false, httpStatus := 401
        errorBodyText := "\x7b\"error\":\x7b\"code\":\"unauthorized\",\"message\":\"Token invalid\"\x7d\x7d"
        deployment := okDeployment }
    domainCall := .failure "unreached"
    envCall := .failure "unreached" }

/-- A world whose primary call answers HTTP 403 with the platform's usual
unauthorized error body (it contains both magic substrings). -/
def c2WitWorld : World :=
  { primary :=
      { ok := false, httpStatus := 403
        errorBodyText := "\x7b\"error\":\x7b\"code\":\"forbidden\",\"message\":\"Not authorized\"\x7d\x7d"
        deployment := okDeployment }
    domainCall := .failure "unreached"
    envCall := .failure "unreached" }

/-- The repository URL whose last path segment contains `.git` in the
middle rather than as a suffix. -/
def c3FailingUrl : String := "https://github.com/acme/my.gitrepo"

/-- A schema-valid body carrying `c3FailingUrl`. -/
def c3Body : RawBody :=
  { repositoryUrl := some c3FailingUrl
    userName := some "alice"
    projectName := some "widget-prod" }

/-- A form whose only rule violation is the env-var entry with a blank key. -/
def c8CeForm : FormData :=
  { repositoryUrl := "https://github.com/acme/widget"
    userName := "alice"
    password := ""
    domainName := ""
    projectName := "widget"
    branch := "main"
    target := .production
    envVars := [⟨"", "y"⟩] }

/-- The error mapping `validateForm` produces for `c8CeForm`. -/
def c8CeErrs : FormErrors :=
  { envVars := some "All environment variables must have both key and value" }

/-- An error mapping carrying only a user-name error, for the C8 witness. -/
def c8WitErrs : FormErrors :=
  { userName := some "Username must be at least 3 characters" }

/-- A form violating the user-name rule, for the C6 witness. -/
def c6CeForm : FormData :=
  { repositoryUrl := "https://github.com/acme/widget"
    userName := "ab"
    password := ""
    domainName := ""
    projectName := "widget"
    branch := "main"
    target := .production
    envVars := [] }

/-- A constant stand-in for the network: the C6 witness never reaches it. -/
def c6Server : RawBody → ApiResponse := fun _ =>
  { httpStatus := 200, success := true }

/-! ## Sanity checks on concrete inputs -/

example : (validateForm
    { repositoryUrl := "https://github.com/acme/widget", userName := "alice",
      password := "", domainName := "", projectName := "widget-prod",
      branch := "main", target := .production, envVars := [] }).isClean = true := by
  decide

example : (validateForm
    { repositoryUrl := "https://github.com/acme/widget/tree", userName := "ab",
      password := "123", domainName := "widget.example.com", projectName := "my app!",
      branch := " ", target := .production,
      envVars := [⟨"API_KEY", "x"⟩, ⟨"", "y"⟩] }) =
    { repositoryUrl := some "Invalid format. Use: https://github.com/username/repository"
      userName := some "Username must be at least 3 characters"
      password := some "Password must be at least 6 characters"
      projectName := some "Only letters, numbers, hyphens, and underscores allowed"
      branch := some "Branch is required"
      domainName := some "Invalid domain format (e.g., mydomain.com)"
      target := none
      envVars := some "All environment variables must have both key and value" } := by
  decide

example : extractGitHubInfo "https://github.com/acme/widget.git" = some ("acme", "widget") := by
  decide

example : extractGitHubInfo "https://github.com/acme/widget/tree" = none := by
  decide

/-! ## General lemmas about the scanning primitives -/

theorem hasPrefixL_extend (p : List Char) :
    ∀ s t, hasPrefixL p s = true → hasPrefixL p (s ++ t) = true := by
  induction p with
  | nil => intro s t _; rfl
  | cons a ps ih =>
    intro s t h
    cases s with
    | nil => simp [hasPrefixL] at h
    | cons c cs =>
      simp only [hasPrefixL, Bool.and_eq_true] at h
      simpa [hasPrefixL, h.1] using ih cs t h.2

theorem hasSubstrL_nil_right : ∀ t, hasSubstrL [] t = true := by
  intro t
  cases t <;> simp [hasSubstrL, hasPrefixL, List.isEmpty]

theorem hasSubstrL_extend (q : List Char) :
    ∀ s t, hasSubstrL q s = true → hasSubstrL q (s ++ t) = true := by
  intro s
  induction s with
  | nil =>
    intro t h
    simp only [hasSubstrL, List.isEmpty_iff] at h
    subst h
    simpa using hasSubstrL_nil_right t
  | cons c cs ih =>
    intro t h
    simp only [hasSubstrL, Bool.or_eq_true] at h ⊢
    rcases h with h | h
    · exact Or.inl (hasPrefixL_extend q (c :: cs) t h)
    · exact Or.inr (ih t h)

theorem dropStartL_eq (p : List Char) :
    ∀ s r, dropStartL p s = some r → s = p ++ r := by
  induction p with
  | nil =>
    intro s r h
    simp only [dropStartL, Option.some.injEq] at h
    simp [h]
  | cons a ps ih =>
    intro s r h
    cases s with
    | nil => simp [dropStartL] at h
    | cons c cs =>
      simp only [dropStartL] at h
      split at h
      next hac =>
        have hca : a = c := eq_of_beq hac
        have hcs := ih cs r h
        simp [hca, hcs]
      next => exact absurd h (by simp)

theorem trimL_cons_of_not_ws (c : Char) (cs : List Char) (h : wsChar c = false) :
    (trimL (c :: cs)).isEmpty = false := by
  unfold trimL
  rw [List.dropWhile_cons_of_neg (by simp [h])]
  cases hE : (((c :: cs).reverse.dropWhile wsChar).reverse).isEmpty
  · rfl
  · exfalso
    have hnil : ((c :: cs).reverse.dropWhile wsChar).reverse = [] := by
      cases hx : ((c :: cs).reverse.dropWhile wsChar).reverse
      · rfl
      · rw [hx] at hE; simp [List.isEmpty] at hE
    have hdw : (c :: cs).reverse.dropWhile wsChar = [] := by
      have := congrArg List.reverse hnil
      simpa using this
    rw [List.dropWhile_eq_nil_iff] at hdw
    have := hdw c (by simp)
    simp [h] at this

/-! ## The client rules behind each error key -/

theorem matchesRepoUrlRe_not_blank (s : String) (h : matchesRepoUrlRe s = true) :
    isBlank s = false := by
  unfold matchesRepoUrlRe at h
  cases hd : dropStartL "https://github.com/".data s.data with
  | none => rw [hd] at h; simp at h
  | some rest =>
    have hs := dropStartL_eq _ _ _ hd
    have hhead : s.data = 'h' :: ("ttps://github.com/".data ++ rest) := by
      rw [hs]; rfl
    unfold isBlank
    rw [hhead]
    exact trimL_cons_of_not_ws _ _ (by decide)

theorem matchesRepoUrlRe_includes (s : String) (h : matchesRepoUrlRe s = true) :
    includes s "github.com" = true := by
  unfold matchesRepoUrlRe at h
  cases hd : dropStartL "https://github.com/".data s.data with
  | none => rw [hd] at h; simp at h
  | some rest =>
    have hs := dropStartL_eq _ _ _ hd
    unfold includes
    rw [hs]
    exact hasSubstrL_extend _ _ _ (by decide)

theorem isProjectChar_not_ws (c : Char) (h : isProjectChar c = true) :
    wsChar c = false := by
  by_contra hne
  have hws : wsChar c = true := by
    cases hb : wsChar c
    · exact absurd hb hne
    · rfl
  simp only [wsChar, Bool.or_eq_true, beq_iff_eq] at hws
  rcases hws with ((h1 | h1) | h1) | h1 <;> subst h1 <;> simp [isProjectChar] at h

theorem matchesProjectNameRe_not_blank (s : String) (h : matchesProjectNameRe s = true) :
    isBlank s = false := by
  unfold matchesProjectNameRe at h
  simp only [Bool.and_eq_true, Bool.not_eq_true', List.all_eq_true] at h
  obtain ⟨hne, hall⟩ := h
  cases hc : s.data with
  | nil => rw [hc] at hne; simp [List.isEmpty] at hne
  | cons c cs =>
    unfold isBlank
    rw [hc]
    exact trimL_cons_of_not_ws _ _ (isProjectChar_not_ws c (hall c (by rw [hc]; simp)))

/-- Error-key presence for the repository URL field collapses to the single
pattern rule: the two guard checks (`required`, `includes`) are implied by
the pattern. -/
theorem repoErr_isSome (f : FormData) :
    ((validateForm f).repositoryUrl).isSome = !matchesRepoUrlRe f.repositoryUrl := by
  show (if isBlank f.repositoryUrl then some "Repository URL is required"
      else if !includes f.repositoryUrl "github.com" then
        some "Please enter a valid GitHub repository URL"
      else if !matchesRepoUrlRe f.repositoryUrl then
        some "Invalid format. Use: https://github.com/username/repository"
      else none).isSome = !matchesRepoUrlRe f.repositoryUrl
  by_cases hb : isBlank f.repositoryUrl
  · rw [if_pos hb]
    cases hm : matchesRepoUrlRe f.repositoryUrl
    · rfl
    · rw [matchesRepoUrlRe_not_blank _ hm] at hb; exact absurd hb (by simp)
  · rw [if_neg hb]
    by_cases hi : includes f.repositoryUrl "github.com"
    · rw [if_neg (by simp [hi])]
      cases hm : matchesRepoUrlRe f.repositoryUrl <;> simp
    · rw [if_pos (by simp [hi])]
      cases hm : matchesRepoUrlRe f.repositoryUrl
      · rfl
      · exact absurd (matchesRepoUrlRe_includes _ hm) hi

theorem userErr_isSome (f : FormData) :
    ((validateForm f).userName).isSome
      = (isBlank f.userName || decide (f.userName.length < 3)) := by
  show (if isBlank f.userName then some "Username is required"
      else if f.userName.length < 3 then some "Username must be at least 3 characters"
      else none).isSome = (isBlank f.userName || decide (f.userName.length < 3))
  by_cases hb : isBlank f.userName
  · simp [hb]
  · by_cases hl : f.userName.length < 3 <;> simp [hb, hl]

theorem passwordErr_isSome (f : FormData) :
    ((validateForm f).password).isSome
      = (!strEmpty f.password && decide (f.password.length < 6)) := by
  show (if !strEmpty f.password && f.password.length < 6 then
      some "Password must be at least 6 characters" else none).isSome
      = (!strEmpty f.password && decide (f.password.length < 6))
  by_cases h : !strEmpty f.password && f.password.length < 6
  · simp only [if_pos h, Option.isSome_some]
    simp only [Bool.and_eq_true, decide_eq_true_eq] at h
    simp [h.1, h.2]
  · simp only [if_neg h, Option.isSome_none]
    simp only [Bool.and_eq_true, decide_eq_true_eq, not_and_or] at h
    rcases h with h | h <;> simp [h]

theorem projectErr_isSome (f : FormData) :
    ((validateForm f).projectName).isSome = !matchesProjectNameRe f.projectName := by
  show (if isBlank f.projectName then some "Project name is required"
      else if !matchesProjectNameRe f.projectName then
        some "Only letters, numbers, hyphens, and underscores allowed"
      else none).isSome = !matchesProjectNameRe f.projectName
  by_cases hb : isBlank f.projectName
  · rw [if_pos hb]
    cases hm : matchesProjectNameRe f.projectName
    · rfl
    · rw [matchesProjectNameRe_not_blank _ hm] at hb; exact absurd hb (by simp)
  · rw [if_neg hb]
    cases hm : matchesProjectNameRe f.projectName <;> simp

theorem branchErr_isSome (f : FormData) :
    ((validateForm f).branch).isSome = isBlank f.branch := by
  show (if isBlank f.branch then some "Branch is required" else none).isSome
      = isBlank f.branch
  by_cases hb : isBlank f.branch <;> simp [hb]

theorem domainErr_isSome (f : FormData) :
    ((validateForm f).domainName).isSome
      = (!strEmpty f.domainName && !matchesDomainRe f.domainName) := by
  show (if !strEmpty f.domainName && !matchesDomainRe f.domainName then
      some "Invalid domain format (e.g., mydomain.com)" else none).isSome
      = (!strEmpty f.domainName && !matchesDomainRe f.domainName)
  by_cases h : !strEmpty f.domainName && !matchesDomainRe f.domainName <;> simp [h]

theorem targetErr_isSome (f : FormData) :
    ((validateForm f).target).isSome = false := rfl

theorem filter_length_pos_eq_any (p : EnvVar → Bool) (l : List EnvVar) :
    decide (0 < (l.filter p).length) = l.any p := by
  induction l with
  | nil => rfl
  | cons e es ih =>
    cases hp : p e
    · simpa [List.filter_cons, hp] using ih
    · simp [List.filter_cons, hp]

theorem envErr_isSome (f : FormData) :
    ((validateForm f).envVars).isSome
      = f.envVars.any fun e => isBlank e.key || isBlank e.value := by
  show (if 0 < (f.envVars.filter fun e => isBlank e.key || isBlank e.value).length
      then some "All environment variables must have both key and value"
      else none).isSome = f.envVars.any fun e => isBlank e.key || isBlank e.value
  rw [← filter_length_pos_eq_any]
  by_cases h : 0 < (f.envVars.filter fun e => isBlank e.key || isBlank e.value).length
  · simp [h]
  · simp [h]

theorem isNone_eq_not_isSome {α : Type} (o : Option α) : o.isNone = !o.isSome := by
  cases o <;> rfl

theorem isClean_eq_wellFormed (f : FormData) :
    (validateForm f).isClean = wellFormedForm f := by
  have hr := repoErr_isSome f
  have hu := userErr_isSome f
  have hp := passwordErr_isSome f
  have hj := projectErr_isSome f
  have hb := branchErr_isSome f
  have hd := domainErr_isSome f
  have ht := targetErr_isSome f
  have he := envErr_isSome f
  simp only [FormErrors.isClean, wellFormedForm, isNone_eq_not_isSome,
    hr, hu, hp, hj, hb, hd, ht, he, Bool.not_not, Bool.not_false, Bool.true_and,
    Bool.and_true]

/-! ## Characterizing acceptance by the server schema -/

theorem isEmpty_append {α : Type} (l m : List α) :
    (l ++ m).isEmpty = (l.isEmpty && m.isEmpty) := by
  cases l <;> simp [List.isEmpty]

theorem repoIssues_empty (o : Option String) :
    (repoIssues o).isEmpty = repoFieldOK o := by
  cases o with
  | none => rfl
  | some u =>
    by_cases h1 : isWellFormedUrl u
    · by_cases h2 : includes u "github.com" <;>
        simp [repoIssues, repoFieldOK, h1, h2, List.isEmpty]
    · simp [repoIssues, repoFieldOK, h1, List.isEmpty]

theorem userIssues_empty (o : Option String) :
    (userIssues o).isEmpty = userFieldOK o := by
  cases o with
  | none => rfl
  | some u => by_cases h : strEmpty u <;> simp [userIssues, userFieldOK, h, List.isEmpty]

theorem projectIssues_empty (o : Option String) :
    (projectIssues o).isEmpty = projectFieldOK o := by
  cases o with
  | none => rfl
  | some p => by_cases h : strEmpty p <;> simp [projectIssues, projectFieldOK, h, List.isEmpty]

theorem branchIssues_empty (o : Option String) :
    (branchIssues o).isEmpty = branchFieldOK o := by
  cases o with
  | none => rfl
  | some s => by_cases h : strEmpty s <;> simp [branchIssues, branchFieldOK, h, List.isEmpty]

theorem targetIssues_empty (o : Option String) :
    (targetIssues o).isEmpty = targetFieldOK o := by
  cases o with
  | none => rfl
  | some t =>
    by_cases h : (t == "production" || t == "preview") = true <;>
      simp [targetIssues, targetFieldOK, h, List.isEmpty]

theorem envEntryIssues_empty (i : Nat) (e : EnvVar) :
    (envEntryIssues i e).isEmpty = (!strEmpty e.key && !strEmpty e.value) := by
  by_cases h1 : strEmpty e.key <;> by_cases h2 : strEmpty e.value <;>
    simp [envEntryIssues, isEmpty_append, h1, h2, List.isEmpty]

theorem envListIssues_empty (es : List EnvVar) :
    ∀ i, (envListIssues i es).isEmpty
      = es.all fun e => !strEmpty e.key && !strEmpty e.value := by
  induction es with
  | nil => intro i; rfl
  | cons e es ih =>
    intro i
    simp [envListIssues, isEmpty_append, envEntryIssues_empty, ih (i + 1),
      List.all_cons]

theorem envIssues_empty (o : Option (List EnvVar)) :
    (envIssues o).isEmpty = envFieldOK o := by
  cases o with
  | none => rfl
  | some es => exact envListIssues_empty es 0

/-- Schema acceptance is exactly the weaker server contract. -/
theorem zodIssues_empty (b : RawBody) :
    (zodIssues b).isEmpty = serverContractOK b := by
  simp [zodIssues, serverContractOK, isEmpty_append, repoIssues_empty,
    userIssues_empty, projectIssues_empty, branchIssues_empty,
    targetIssues_empty, envIssues_empty, Bool.and_assoc]

theorem serverParse_isSome (b : RawBody) :
    (serverParse b).isSome = serverContractOK b := by
  rw [serverParse, ← zodIssues_empty]
  by_cases h : (zodIssues b).isEmpty <;> simp [h]

theorem serverParse_defaults (b : RawBody) (v : ValidatedData)
    (h : serverParse b = some v) :
    v.branch = b.branch.getD "main"
    ∧ v.target = (if b.target == some "preview" then Target.preview else Target.production)
    ∧ v.envVars = b.envVars.getD [] := by
  rw [serverParse] at h
  split at h
  · obtain ⟨rfl⟩ := Option.some.injEq .. ▸ h
    exact ⟨rfl, rfl, rfl⟩
  · exact absurd h (by simp)

/-! ## Reduction lemmas for the handler stages -/

theorem handlePOST_parsed (b : RawBody) (w : World) (v : ValidatedData)
    (h : serverParse b = some v) : handlePOST b w = afterParse v w := by
  unfold handlePOST
  rw [h]

theorem afterParse_extracted (v : ValidatedData) (w : World) (g : String × String)
    (h : extractGitHubInfo v.repositoryUrl = some g) :
    afterParse v w = afterExtract v w := by
  unfold afterParse
  rw [h]

theorem afterExtract_primary_ok (v : ValidatedData) (w : World)
    (h : w.primary.ok = true) : afterExtract v w = successResponse v w := by
  unfold afterExtract
  rw [h]
  rfl

theorem afterExtract_primary_fail (v : ValidatedData) (w : World)
    (h : w.primary.ok = false) :
    afterExtract v w = (catchHandler { message := w.primary.errorBodyText }, noCalls) := by
  unfold afterExtract
  rw [h]
  rfl

theorem catchHandler_auth (m : String)
    (h : (includes m "forbidden" || includes m "Not authorized") = true) :
    catchHandler { message := m } =
      { httpStatus := 403, success := false,
        error := some "Vercel authentication failed",
        message := some "Vercel token is invalid or expired. Please check your VERCEL_TOKEN environment variable." } := by
  unfold catchHandler
  simp [h]

/-! ## Claim C1 -/

/-- Claim C1, counterexample: the server-side schema accepts the serialized
form `c1CeForm` although the Client Validator flags its repository URL,
user name, password, project name and domain name — so schema acceptance is
not equivalent to the §4.1 field contract. -/
theorem c1_server_contract_counterexample :
    (serverParse (bodyOfForm c1CeForm)).isSome = true
    ∧ ((validateForm c1CeForm).repositoryUrl).isSome = true
    ∧ ((validateForm c1CeForm).userName).isSome = true
    ∧ ((validateForm c1CeForm).password).isSome = true
    ∧ ((validateForm c1CeForm).projectName).isSome = true
    ∧ ((validateForm c1CeForm).domainName).isSome = true := by
  decide

/-- Claim C1, amended: the Request Validator accepts a body exactly when it
satisfies the strictly weaker server contract — repository URL a well-formed
URL containing `github.com`, non-empty user name and project name, branch
non-empty when present, target in the enum when present, every supplied
env-var entry with non-empty key and value — with branch defaulting to
`"main"`, target defaulting to production, and the env-var list defaulting
to empty when absent. -/
theorem c1_server_contract_amended (b : RawBody) :
    (serverParse b).isSome = serverContractOK b
    ∧ ∀ v, serverParse b = some v →
        (b.branch = none → v.branch = "main")
        ∧ (b.target = none → v.target = Target.production)
        ∧ (b.envVars = none → v.envVars = []) := by
  refine ⟨serverParse_isSome b, ?_⟩
  intro v hv
  obtain ⟨h1, h2, h3⟩ := serverParse_defaults b v hv
  exact ⟨fun hb => by simp [h1, hb],
         fun ht => by simp [h2, ht],
         fun he => by simp [h3, he]⟩

/-- Witness for the amended C1: on the concrete body `c1WitBody` the schema
accepts and applies all three defaults. -/
theorem c1_server_contract_amended_witness :
    c1WitData.branch = "main" ∧ c1WitData.target = Target.production
    ∧ c1WitData.envVars = [] := by
  have h := (c1_server_contract_amended c1WitBody).2 c1WitData (by decide)
  exact ⟨h.1 rfl, h.2.1 rfl, h.2.2 rfl⟩

/-! ## Claim C2 -/

/-- Claim C2, counterexample: the primary call answers HTTP 401, yet the
handler replies with generic status 500 (echoing the raw error body) because
the thrown `Error` has no `status` property and the body mentions neither
`forbidden` nor `Not authorized`; no domain or env-var call is made. -/
theorem c2_auth_error_counterexample :
    c2CeWorld.primary.ok = false
    ∧ c2CeWorld.primary.httpStatus = 401
    ∧ (handlePOST okBody c2CeWorld).1.httpStatus = 500
    ∧ (handlePOST okBody c2CeWorld).1.error = some c2CeWorld.primary.errorBodyText
    ∧ (handlePOST okBody c2CeWorld).2 = noCalls := by
  decide

/-- Claim C2, amended: when the primary create-deployment call fails with an
error body mentioning `forbidden` or `Not authorized` (the shape of the
platform's unauthorized responses), the handler answers 403 with the
credential-referencing message, and — for any failed primary call — issues
no domain-attach and no env-var call. -/
theorem c2_auth_error_amended :
    (∀ (b : RawBody) (w : World) (v : ValidatedData) (g : String × String),
      serverParse b = some v → extractGitHubInfo v.repositoryUrl = some g →
      w.primary.ok = false →
      (includes w.primary.errorBodyText "forbidden"
        || includes w.primary.errorBodyText "Not authorized") = true →
      (handlePOST b w).1.httpStatus = 403
      ∧ (handlePOST b w).1.success = false
      ∧ (handlePOST b w).1.error = some "Vercel authentication failed"
      ∧ (handlePOST b w).1.message
          = some "Vercel token is invalid or expired. Please check your VERCEL_TOKEN environment variable."
      ∧ (handlePOST b w).2 = noCalls)
    ∧ ∀ (b : RawBody) (w : World) (v : ValidatedData) (g : String × String),
      serverParse b = some v → extractGitHubInfo v.repositoryUrl = some g →
      w.primary.ok = false → (handlePOST b w).2 = noCalls := by
  constructor
  · intro b w v g h1 h2 h3 h4
    rw [handlePOST_parsed b w v h1, afterParse_extracted v w g h2,
      afterExtract_primary_fail v w h3]
    rw [catchHandler_auth _ h4]
    exact ⟨rfl, rfl, rfl, rfl, rfl⟩
  · intro b w v g h1 h2 h3
    rw [handlePOST_parsed b w v h1, afterParse_extracted v w g h2,
      afterExtract_primary_fail v w h3]

/-- Witness for the amended C2: a concrete unauthorized error body (the
platform's `forbidden` / `Not authorized` shape) yields the 403
authentication response and no follow-up calls. -/
theorem c2_auth_error_amended_witness :
    (handlePOST okBody c2WitWorld).1.httpStatus = 403
    ∧ (handlePOST okBody c2WitWorld).1.error = some "Vercel authentication failed"
    ∧ (handlePOST okBody c2WitWorld).2 = noCalls := by
  have h := c2_auth_error_amended.1 okBody c2WitWorld okData ("acme", "widget")
    (by decide) (by decide) (by decide) (by decide)
  exact ⟨h.1, h.2.2.1, h.2.2.2.2⟩

/-! ## Claim C3 -/

/-- Claim C3: `repo.replace('.git', '')` removes the *first* occurrence of
`.git` anywhere in the repository segment, so for the schema-valid URL
`c3FailingUrl` — whose last segment `my.gitrepo` does not end in `.git` —
the extracted repository name is the mangled `myrepo` instead of the
claimed untouched `my.gitrepo`. -/
theorem c3_git_suffix_code_bug :
    hasSuffixL ".git".data "my.gitrepo".data = false
    ∧ (serverParse c3Body).isSome = true
    ∧ extractGitHubInfo c3FailingUrl = some ("acme", "myrepo") := by
  decide

/-! ## Claim C4 -/

/-- Claim C4: on every successful run, the response's deployment URL and
inspector URL are the normalized forms of the platform's values; the
normalization sends the scheme-less `"my-app.vercel.app"` to
`"https://my-app.vercel.app"` and leaves `"https://my-app.vercel.app"`
unchanged. -/
theorem c4_url_normalization (b : RawBody) (w : World) (v : ValidatedData)
    (g : String × String) (h1 : serverParse b = some v)
    (h2 : extractGitHubInfo v.repositoryUrl = some g) (h3 : w.primary.ok = true) :
    ∃ r, (handlePOST b w).1.deployment = some r
      ∧ r.url = normalizeUrl w.primary.deployment.url
      ∧ r.inspectorUrl = normalizeUrl w.primary.deployment.inspectorUrl
      ∧ normalizeUrl (some "my-app.vercel.app") = some "https://my-app.vercel.app"
      ∧ normalizeUrl (some "https://my-app.vercel.app") = some "https://my-app.vercel.app" := by
  rw [handlePOST_parsed b w v h1, afterParse_extracted v w g h2,
    afterExtract_primary_ok v w h3]
  exact ⟨_, rfl, rfl, rfl, by decide, by decide⟩

/-- Witness for C4 at the concrete fixture: the scheme-less deployment URL
is prefixed with `https://` and the already-absolute inspector URL is kept. -/
theorem c4_url_normalization_witness :
    ∃ r, (handlePOST okBody okWorld).1.deployment = some r
      ∧ r.url = some "https://my-app.vercel.app"
      ∧ r.inspectorUrl = some "https://vercel.com/acme/widget-prod/6CR1u7" := by
  obtain ⟨r, hr, hu, hi, _, _⟩ := c4_url_normalization okBody okWorld okData
    ("acme", "widget") (by decide) (by decide) (by decide)
  refine ⟨r, hr, ?_, ?_⟩
  · rw [hu]; decide
  · rw [hi]; decide

/-! ## Claim C5 -/

/-- Claim C5: when the primary deployment call succeeds and the
domain-attach call fails, the handler still answers 200 with
`success = true`, a populated `deployment` object, and a `domain` object
with `added = false` and the failure message in `error`. -/
theorem c5_domain_failure_partial_success (b : RawBody) (w : World)
    (v : ValidatedData) (g : String × String) (dn msg : String)
    (h1 : serverParse b = some v) (h2 : extractGitHubInfo v.repositoryUrl = some g)
    (h3 : w.primary.ok = true) (h4 : v.domainName = some dn)
    (h5 : strEmpty dn = false) (h6 : w.domainCall = CallResult.failure msg) :
    (handlePOST b w).1.success = true
    ∧ (handlePOST b w).1.httpStatus = 200
    ∧ (handlePOST b w).1.domain
        = some { name := dn, status := "error", added := false, error := some msg }
    ∧ ∃ r, (handlePOST b w).1.deployment = some r := by
  rw [handlePOST_parsed b w v h1, afterParse_extracted v w g h2,
    afterExtract_primary_ok v w h3]
  refine ⟨rfl, rfl, ?_, ⟨_, rfl⟩⟩
  show (successResponse v w).1.domain = _
  simp [successResponse, h4, h5, h6]

/-- Witness for C5 at the concrete fixture: a failed domain attach leaves
the overall outcome successful. -/
theorem c5_domain_failure_partial_success_witness :
    (handlePOST okBody okWorld).1.success = true
    ∧ (handlePOST okBody okWorld).1.domain
        = some { name := "widget.example.com", status := "error", added := false,
                 error := some "Domain is already assigned to another project" } := by
  have h := c5_domain_failure_partial_success okBody okWorld okData ("acme", "widget")
    "widget.example.com" "Domain is already assigned to another project"
    (by decide) (by decide) (by decide) (by decide) (by decide) (by decide)
  exact ⟨h.1, h.2.2.1⟩

/-! ## Claim C6 -/

/-- Claim C6: on any form state the Client Validator flags, `handleSubmit`
returns the validation failure immediately and the network flag stays
`false`. -/
theorem c6_validation_blocks_network (f : FormData) (server : RawBody → ApiResponse)
    (h : (validateForm f).isClean = false) :
    handleSubmit f server = (SubmitOutcome.validationFailure (validateForm f), false) := by
  simp [handleSubmit, h]

/-- Witness for C6: the form with the two-character user name is flagged
and its submission performs no network call. -/
theorem c6_validation_blocks_network_witness :
    (validateForm c6CeForm).isClean = false
    ∧ handleSubmit c6CeForm c6Server
        = (SubmitOutcome.validationFailure (validateForm c6CeForm), false) :=
  ⟨by decide, c6_validation_blocks_network c6CeForm c6Server (by decide)⟩

/-! ## Claim C7 -/

/-- Claim C7: each error key of the Client Validator's output is present
exactly when its own rule is violated, independently of every other field
(so there is no short-circuiting or masking), and the mapping is empty
exactly on the well-formed inputs of §4.1 — here well-formedness also covers
the optional-field rules (password length, domain pattern, env-var pairs),
which the validator checks on the same pass. -/
theorem c7_validator_field_independence (f : FormData) :
    (validateForm f).isClean = wellFormedForm f
    ∧ ((validateForm f).repositoryUrl).isSome = !matchesRepoUrlRe f.repositoryUrl
    ∧ ((validateForm f).userName).isSome
        = (isBlank f.userName || decide (f.userName.length < 3))
    ∧ ((validateForm f).password).isSome
        = (!strEmpty f.password && decide (f.password.length < 6))
    ∧ ((validateForm f).projectName).isSome = !matchesProjectNameRe f.projectName
    ∧ ((validateForm f).branch).isSome = isBlank f.branch
    ∧ ((validateForm f).domainName).isSome
        = (!strEmpty f.domainName && !matchesDomainRe f.domainName)
    ∧ ((validateForm f).target).isSome = false
    ∧ ((validateForm f).envVars).isSome
        = (f.envVars.any fun e => isBlank e.key || isBlank e.value) :=
  ⟨isClean_eq_wellFormed f, repoErr_isSome f, userErr_isSome f, passwordErr_isSome f,
   projectErr_isSome f, branchErr_isSome f, domainErr_isSome f, targetErr_isSome f,
   envErr_isSome f⟩

/-! ## Claim C8 -/

/-- Claim C8, counterexample: `validateForm` flags the `envVars` key on
`c8CeForm`, and editing entry 0 of the environment-variable list (a genuine
edit, as the form state shows) leaves the error mapping untouched — the
`envVars` key is *not* removed, contradicting the claim for list entries. -/
theorem c8_edit_clears_error_counterexample :
    validateForm c8CeForm = c8CeErrs
    ∧ (editEnvVarEntry 0 EnvSlot.key "API_KEY" c8CeForm c8CeErrs).1.envVars
        = [⟨"API_KEY", "y"⟩]
    ∧ ((editEnvVarEntry 0 EnvSlot.key "API_KEY" c8CeForm c8CeErrs).2).envVars
        = some "All environment variables must have both key and value" := by
  decide

/-- Claim C8, amended: for the scalar fields edited through
`handleInputChange`, editing a flagged field removes exactly that field's
key and leaves every other key unchanged; editing an entry of the
environment-variable list through `updateEnvVar` leaves the whole error
mapping unchanged (the `envVars` key persists until the next validation). -/
theorem c8_edit_clears_error_amended :
    (∀ (fld : ScalarField) (value : String) (f : FormData) (errs : FormErrors)
        (m : String),
      errs.get fld.key = some m → strEmpty m = false →
      ((handleInputChange fld value f errs).2.get fld.key = none
        ∧ ∀ k : FieldKey, k ≠ fld.key →
            (handleInputChange fld value f errs).2.get k = errs.get k))
    ∧ ∀ (i : Nat) (slot : EnvSlot) (v : String) (f : FormData) (errs : FormErrors),
        (editEnvVarEntry i slot v f errs).2 = errs := by
  constructor
  · intro fld value f errs m hm hne
    constructor
    · simp only [handleInputChange, hm, hne, Bool.false_eq_true, if_false]
      cases fld <;> simp [FormErrors.clear, FormErrors.get, ScalarField.key]
    · intro k hk
      simp only [handleInputChange, hm, hne, Bool.false_eq_true, if_false]
      cases fld <;> cases k <;>
        simp_all [FormErrors.clear, FormErrors.get, ScalarField.key]
  · intro i slot v f errs
    rfl

/-- Witness for the amended C8: clearing the flagged user-name error leaves
the other keys (here `envVars`) untouched. -/
theorem c8_edit_clears_error_amended_witness :
    ((handleInputChange ScalarField.userName "alice" c6CeForm c8WitErrs).2).userName = none
    ∧ ((handleInputChange ScalarField.userName "alice" c6CeForm c8WitErrs).2).envVars
        = c8WitErrs.envVars := by
  have h := c8_edit_clears_error_amended.1 ScalarField.userName "alice" c6CeForm c8WitErrs
    "Username must be at least 3 characters" (by decide) (by decide)
  exact ⟨h.1, h.2 FieldKey.envVars (by decide)⟩

/-! ## Claim C9 -/

/-- Claim C9: on a successful primary call with a non-empty env-var list the
handler issues exactly one batch upsert whose payload tags every pair with
target `["production"]` and type `"plain"`; on success the response reports
`added = true` with the list length and the keys, and a failure of this call
leaves the overall outcome successful. -/
theorem c9_env_var_batch (b : RawBody) (w : World) (v : ValidatedData)
    (g : String × String) (h1 : serverParse b = some v)
    (h2 : extractGitHubInfo v.repositoryUrl = some g) (h3 : w.primary.ok = true)
    (h4 : v.envVars.isEmpty = false) :
    (handlePOST b w).2.envPayload
      = some (v.envVars.map fun e =>
          { key := e.key, value := e.value, target := ["production"], envType := "plain" })
    ∧ (∀ u : Unit, w.envCall = CallResult.success u →
        (handlePOST b w).1.envVars
          = some { added := true, count := v.envVars.length,
                   «variables» := some (v.envVars.map fun e => e.key) })
    ∧ ∀ msg, w.envCall = CallResult.failure msg →
        (handlePOST b w).1.success = true
        ∧ (handlePOST b w).1.httpStatus = 200
        ∧ (handlePOST b w).1.envVars
            = some { added := false, count := 0, error := some msg } := by
  rw [handlePOST_parsed b w v h1, afterParse_extracted v w g h2,
    afterExtract_primary_ok v w h3]
  refine ⟨?_, ?_, ?_⟩
  · show (successResponse v w).2.envPayload = _
    simp [successResponse, h4]
  · intro u h5
    show (successResponse v w).1.envVars = _
    simp [successResponse, h4, h5]
  · intro msg h5
    refine ⟨rfl, rfl, ?_⟩
    show (successResponse v w).1.envVars = _
    simp [successResponse, h4, h5]

/-- Witness for C9: the two fixture pairs are sent in one batch, each tagged
for production as plain, and the success response counts and names them. -/
theorem c9_env_var_batch_witness :
    (handlePOST okBody okWorld).2.envPayload
      = some [ { key := "API_KEY", value := "secret1", target := ["production"],
                 envType := "plain" },
               { key := "DB_URL", value := "postgres", target := ["production"],
                 envType := "plain" } ]
    ∧ (handlePOST okBody okWorld).1.envVars
        = some { added := true, count := 2, «variables» := some ["API_KEY", "DB_URL"] } := by
  have h := c9_env_var_batch okBody okWorld okData ("acme", "widget")
    (by decide) (by decide) (by decide) (by decide)
  refine ⟨?_, ?_⟩
  · rw [h.1]; decide
  · rw [h.2.1 () (by decide)]; decide

/-! ## Claim C10 -/

/-- Claim C10: every successful response carries
`deployment.state = "BUILDING"`, whatever state the platform reported
(the fixture's platform response says `"READY"`). -/
theorem c10_state_building (b : RawBody) (w : World) (v : ValidatedData)
    (g : String × String) (h1 : serverParse b = some v)
    (h2 : extractGitHubInfo v.repositoryUrl = some g) (h3 : w.primary.ok = true) :
    ∃ r, (handlePOST b w).1.deployment = some r ∧ r.state = "BUILDING" := by
  rw [handlePOST_parsed b w v h1, afterParse_extracted v w g h2,
    afterExtract_primary_ok v w h3]
  exact ⟨_, rfl, rfl⟩

/-- Witness for C10: the fixture world reports platform state `"READY"` yet
the response says `"BUILDING"`. -/
theorem c10_state_building_witness :
    okDeployment.state = "READY"
    ∧ ∃ r, (handlePOST okBody okWorld).1.deployment = some r ∧ r.state = "BUILDING" :=
  ⟨by decide, c10_state_building okBody okWorld okData ("acme", "widget")
    (by decide) (by decide) (by decide)⟩

end Vortex
